import Mathlib

/-!
User routes (`backend/routes/users.js`).

A shallow embedding of the Express router in `backend/routes/users.js`.

* A request handler is a function from the request and the current `State`
  (stored users, stored avatar files, log of effects in the order they happen)
  to an `Outcome` (the response sent, if any, and the next state).
* Middleware order is kept: a route is the composition of its middlewares in
  the order they are listed in `router.<method>(path, mw₁, mw₂, handler)`.
* Everything the file obtains from its surroundings in one request (token
  verification, `bcrypt`, the ObjectId cast of the driver, `uuid()`,
  `Date.now()`, `process.env.SERVER_URL`) is a field of `Env`.
-/

namespace Users

/-! ## Documents -/

/-- A store identifier (a MongoDB ObjectId is a 12-byte value). -/
structure ObjectId where
  value : Nat
deriving DecidableEq, Repr

/-- Modelled from the spec: the User schema of `models/User` (section 3, data model), which
is required by the routes file but is not among the sources. The stored secret is the field
`password` and the internal version field is `__v`, the two names the routes file uses in
`select('-password -__v')`. -/
structure User where
  _id : ObjectId
  firstname : String
  lastname : String
  email : String
  phone : Option String
  address : Option String
  avatar : Option String
  password : String
  role : String
  status : String
  __v : Nat
deriving DecidableEq, Repr

/-- A user document as serialised into a response body. A field that has been removed from
the document (by a projection or by `delete`) is `none`. -/
structure UserJson where
  _id : ObjectId
  firstname : String
  lastname : String
  email : String
  phone : Option String
  address : Option String
  avatar : Option String
  password : Option String
  role : String
  status : String
  __v : Option Nat
deriving DecidableEq, Repr

/-- Serialisation of a stored document with no projection: every stored field is present. -/
def User.toJSON (u : User) : UserJson :=
  { _id := u._id, firstname := u.firstname, lastname := u.lastname, email := u.email,
    phone := u.phone, address := u.address, avatar := u.avatar,
    password := some u.password, role := u.role, status := u.status, __v := some u.__v }

/-- Mongoose `.select(...)` with an exclusion list: `select ["-password", "-__v"]` is
`.select('-password -__v')`. Only the two exclusions that occur in the routes file are
interpreted. -/
def select (fields : List String) (d : UserJson) : UserJson :=
  { d with
    password := if "-password" ∈ fields then none else d.password
    __v := if "-__v" ∈ fields then none else d.__v }

/-- The statement `delete savedUser._doc.password`. -/
def deletePassword (d : UserJson) : UserJson :=
  { d with password := none }

/-- A key of an update document that starts with `$` (an update operator: `$set`, `$unset`,
`$rename`, ...) together with its argument, the list of its path and value pairs. A stage of
an update pipeline has the same shape. -/
structure UpdateOperator where
  name : String
  args : List (String × String)
deriving DecidableEq, Repr

/-- An update document, as a request body that is a JSON object (or an object literal of the
routes file) is read by the model layer. The nine optional fields are the plain keys that
are paths of the User schema, with string values, the schema type of these paths (plain keys
that are not in the schema are dropped by the model layer and are not represented);
`operators` are the keys that start with `$`, which are update operators, in the order of the
body. -/
structure UpdateValues where
  firstname : Option String := none
  lastname : Option String := none
  email : Option String := none
  phone : Option String := none
  address : Option String := none
  avatar : Option String := none
  password : Option String := none
  role : Option String := none
  status : Option String := none
  operators : List UpdateOperator := []
deriving DecidableEq, Repr

/-- The second argument of `User.findOneAndUpdate`. The two update routes pass `req.body` as
it arrives: a JSON object (an update document) or a JSON array (an update pipeline). -/
inductive UpdateBody where
  | object (values : UpdateValues)
  | pipeline (stages : List UpdateOperator)
deriving DecidableEq, Repr

/-- The body of `POST /create`: the six fields the handler reads. A body may carry more
fields; `role` stands for those (the handler never reads it). -/
structure CreateBody where
  firstname : String
  lastname : String
  email : String
  phone : String
  address : String
  password : String
  role : Option String := none
deriving DecidableEq, Repr

/-! ## Environment -/

/-- Modelled from the spec: the identity that `utils/verifyToken` attaches to the request as
`req.user` (section 4.1: the resolved identity is an id plus a role). -/
structure Identity where
  _id : String
  role : String
deriving DecidableEq, Repr

/-- Errors raised by the model layer. -/
inductive StoreError where
  | castError
  | duplicateKey
  | badUpdate
deriving DecidableEq, Repr

/-- The `code` property of an error; a unique-index violation carries 11000. -/
def StoreError.code : StoreError → Option Nat
  | .castError => none
  | .duplicateKey => some 11000
  | .badUpdate => none

/-- What one request obtains from outside the routes file. -/
structure Env where
  /-- The cast of a string to an ObjectId done by the model layer on `_id` conditions. -/
  castObjectId : String → Option ObjectId
  /-- Signature and expiry check of a bearer credential (done inside `verifyToken`). -/
  resolveToken : String → Option Identity
  /-- The function `bcrypt.genSalt`, given the cost factor. -/
  genSalt : Nat → String
  /-- The function `bcrypt.hash`, given the plaintext and the salt. -/
  hash : String → String → String
  /-- The `_id` given to a document built by `new User(...)`. -/
  newObjectId : List User → ObjectId
  /-- A generated ObjectId is not the `_id` of a stored document. -/
  newObjectId_fresh : ∀ users : List User, ∀ u ∈ users, u._id ≠ newObjectId users
  /-- The result of `uuid()` (from `utils/Utils`). -/
  uuid : String
  /-- The result of `Date.now()`. -/
  now : Nat
  /-- The value of `process.env.SERVER_URL`. -/
  serverUrl : String
  /-- The `message` property of an error. -/
  errorMessage : StoreError → String
  /-- The document the store makes of a stored document under an update document that has an
  operator other than `$set`, or under an update pipeline (or the error it raises). -/
  applyOperators : UpdateBody → User → Except StoreError User

/-! ## Asset naming (`multerStorage`) -/

/-- The file part of a multipart request. -/
structure UploadedFile where
  mimetype : String
  size : Nat
deriving DecidableEq, Repr

/-- The constant `saltLength`. -/
def saltLength : Nat := 10

/-- The method `String.prototype.split` with a one-character separator. -/
def jsSplit (sep : Char) : List Char → List (List Char)
  | [] => [[]]
  | c :: cs =>
    if c = sep then [] :: jsSplit sep cs
    else
      match jsSplit sep cs with
      | [] => [[c]]
      | seg :: segs => (c :: seg) :: segs

/-- The `destination` callback of `multerStorage`. -/
def destination (_file : UploadedFile) : String := "public/img/profiles"

/-- The expression `file.mimetype.split('/')[1]` as it is rendered inside the template
literal: a missing element renders as `undefined`. -/
def fileExt (mimetype : String) : String :=
  match (jsSplit '/' mimetype.data)[1]? with
  | some seg => String.mk seg
  | none => "undefined"

/-- The `filename` callback of `multerStorage`; `uuid` and `now` are the results of `uuid()`
and `Date.now()`. -/
def filename (uuid : String) (now : Nat) (mimetype : String) : String :=
  "profile-" ++ uuid ++ "-" ++ toString now ++ "." ++ fileExt mimetype

/-- The limit `fileSize` of `uploadProfile`. -/
def fileSizeLimit : Nat := 1024 * 1024 * 5

/-! ## State, responses -/

/-- An effect of a request, as recorded in the log. -/
inductive Event where
  | verifyToken (roles : List String)
  | repo (operation : String)
  | fileWrite (path : String)
deriving DecidableEq, Repr

/-- The users collection, the stored avatar files and the log of effects. -/
structure State where
  users : List User
  files : List String
  log : List Event
deriving DecidableEq, Repr

/-- Appends an effect to the log. -/
def State.record (st : State) (e : Event) : State :=
  { st with log := st.log ++ [e] }

/-- Modelled from the spec: the two failures of `utils/verifyToken` (section 4.1). -/
inductive AuthError where
  | unauthenticated
  | forbidden
deriving DecidableEq, Repr

/-- A response body. -/
inductive Body where
  | text (s : String)
  | message (message : String)
  | statusMessage (status : String) (message : String)
  | users (totalCount : Nat) (users : List UserJson) (filteredCount : Nat)
  | user (user : Option UserJson)
  | updatedUser (updatedUser : UserJson) (message : String)
  | created (user : UserJson) (message : String)
  | offer (message : String) (offer : Option UserJson)
  | updateAvatar (updateAvatar : Option UserJson)
  | storeError (err : StoreError)
  | authError (err : AuthError)
  | uploadError (code : String)
deriving DecidableEq, Repr

/-- An HTTP response. -/
structure Response where
  status : Nat
  body : Body
deriving DecidableEq, Repr

/-- The result of a request. `response = none`: a rejection escaped the handler (no
`try`/`catch` around it) and the handler sent nothing. -/
structure Outcome where
  response : Option Response
  state : State
deriving DecidableEq, Repr

/-- A request: bearer credential, path parameter `id`, body and file part. -/
structure Request (β : Type) where
  token : Option String
  params_id : String
  body : β
  file : Option UploadedFile

/-! ## Model layer (`User.*`) -/

/-- The query `User.findById(id)`. -/
def findById (env : Env) (users : List User) (id : String) : Except StoreError (Option User) :=
  match env.castObjectId id with
  | none => .error .castError
  | some oid => .ok (users.find? (fun u => u._id = oid))

/-- The query `User.findOne` with a filter on `email`. -/
def findOneByEmail (users : List User) (email : String) : Option User :=
  users.find? (fun u => u.email = email)

/-- The document after the plain fields of an update document are set on it. -/
def applyUpdate (u : User) (v : UpdateValues) : User :=
  { u with
    firstname := v.firstname.getD u.firstname
    lastname := v.lastname.getD u.lastname
    email := v.email.getD u.email
    phone := (v.phone.map some).getD u.phone
    address := (v.address.map some).getD u.address
    avatar := (v.avatar.map some).getD u.avatar
    password := v.password.getD u.password
    role := v.role.getD u.role
    status := v.status.getD u.status }

/-- One entry `path: value` of the argument of `$set`, added to the fields to set. A path
that is not one of the nine schema fields is not represented, as for plain keys. -/
def setPath (v : UpdateValues) (path value : String) : UpdateValues :=
  if path = "firstname" then { v with firstname := some value }
  else if path = "lastname" then { v with lastname := some value }
  else if path = "email" then { v with email := some value }
  else if path = "phone" then { v with phone := some value }
  else if path = "address" then { v with address := some value }
  else if path = "avatar" then { v with avatar := some value }
  else if path = "password" then { v with password := some value }
  else if path = "role" then { v with role := some value }
  else if path = "status" then { v with status := some value }
  else v

/-- The fields set by the argument of a `$set` operator. -/
def setArgs (args : List (String × String)) : UpdateValues :=
  args.foldl (fun v a => setPath v a.1 a.2) {}

/-- The document the store makes of a matched document under the second argument of
`User.findOneAndUpdate`. The model layer moves the plain keys of an update document into
`$set`, over an entry of the same path: with no operator, or `$set` only, the result is the
document with the `$set` entries and then the plain fields set. Any other operator, and an
update pipeline, is applied by the store (`Env.applyOperators`). -/
def applyBody (env : Env) (u : User) : UpdateBody → Except StoreError User
  | .object v =>
    if v.operators.all (fun op => op.name = "$set") then
      .ok (applyUpdate (v.operators.foldl (fun w op => applyUpdate w (setArgs op.args)) u) v)
    else env.applyOperators (.object v) u
  | .pipeline stages => env.applyOperators (.pipeline stages) u

/-- Replaces the first document that satisfies `p`. -/
def updateFirst (p : User → Bool) (f : User → User) : List User → List User
  | [] => []
  | u :: us => if p u then f u :: us else u :: updateFirst p f us

/-- Modelled from the spec: the unique index on `email` declared by the User schema
(section 3, invariant 1), read from the model layer: `User.findOneAndUpdate` with the filter
on `_id` and the option `new: true`. Returns the updated document (or `none` when no document
matches) and the collection afterwards; an update the store refuses, and an update that moves
a document onto an email that is already stored (a duplicate-key error), write nothing. -/
def findOneAndUpdate (env : Env) (users : List User) (id : String) (body : UpdateBody) :
    Except StoreError (Option User × List User) :=
  match env.castObjectId id with
  | none => .error .castError
  | some oid =>
    match users.find? (fun u => u._id = oid) with
    | none => .ok (none, users)
    | some u =>
      match applyBody env u body with
      | .error e => .error e
      | .ok u' =>
        if u'.email ≠ u.email ∧ users.any (fun w => w.email = u'.email) then
          .error .duplicateKey
        else .ok (some u', updateFirst (fun w => w._id = oid) (fun _ => u') users)

/-- Modelled from the spec: the unique index on `email` declared by the User schema
(section 3, invariant 1), read from the model layer: `user.save()` of a new document. -/
def save (users : List User) (u : User) : Except StoreError (List User) :=
  if users.any (fun w => w._id = u._id || w.email = u.email) then .error .duplicateKey
  else .ok (users ++ [u])

/-- The function `mongoose.isValidObjectId`: whether the value can be cast to an ObjectId. -/
def isValidObjectId (env : Env) (id : String) : Bool :=
  (env.castObjectId id).isSome

/-! ## Middlewares -/

/-- Modelled from the spec: `utils/verifyToken` (section 4.1), which is required by the routes
file but is not among the sources. Resolves the bearer credential to an identity; fails with
`unauthenticated` when the credential is missing or does not verify and with `forbidden` when
the resolved role is not in the allowed set. It has no side effect. -/
def verifyToken (env : Env) (roles : List String) (token : Option String) :
    Except AuthError Identity :=
  match token with
  | none => .error .unauthenticated
  | some t =>
    match env.resolveToken t with
    | none => .error .unauthenticated
    | some user => if user.role ∈ roles then .ok user else .error .forbidden

/-- Modelled from the spec: the response `utils/verifyToken` sends when it rejects
(section 7: 401 for `Unauthenticated`, 403 for `Forbidden`). -/
def rejection : AuthError → Response
  | .unauthenticated => ⟨401, .authError .unauthenticated⟩
  | .forbidden => ⟨403, .authError .forbidden⟩

/-- The middleware `verifyToken(roles)` followed by the rest of the route: the rest runs only
when the verifier accepts. -/
def guarded (env : Env) (roles : List String) (token : Option String) (st : State)
    (next : Identity → State → Outcome) : Outcome :=
  let st := st.record (.verifyToken roles)
  match verifyToken env roles token with
  | .error e => { response := some (rejection e), state := st }
  | .ok user => next user st

/-- The middleware `uploadProfile.single('avatarFile')`: a file part within the size limit is
written under `destination` with the name given by `filename`, and its path becomes
`req.file.path`; a larger one is refused and nothing is kept. -/
def uploadProfile_single (env : Env) (file : Option UploadedFile) (st : State) :
    Except Response (Option String) × State :=
  match file with
  | none => (.ok none, st)
  | some f =>
    if f.size ≤ fileSizeLimit then
      let path := destination f ++ "/" ++ filename env.uuid env.now f.mimetype
      (.ok (some path), { st with files := st.files ++ [path], log := st.log ++ [.fileWrite path] })
    else (.error ⟨500, .uploadError "LIMIT_FILE_SIZE"⟩, st)

/-- The method `String.prototype.replace` with a string pattern: the first occurrence only. -/
def replaceFirst (pat rep : List Char) : List Char → List Char
  | [] => if pat = [] then rep else []
  | c :: cs =>
    if (c :: cs).take pat.length = pat then rep ++ (c :: cs).drop pat.length
    else c :: replaceFirst pat rep cs

/-- The expression
`process.env.SERVER_URL + '/' + req.file.path.replace(/\\/g, '/').replace('public/', '')`. -/
def imageUri (env : Env) (path : String) : String :=
  env.serverUrl ++ "/" ++
    String.mk (replaceFirst "public/".data [] (path.data.map (fun c => if c = '\\' then '/' else c)))

/-! ## Routes -/

/-- The route `GET /`. -/
def getUsers (env : Env) (req : Request Unit) (st : State) : Outcome :=
  guarded env ["admin"] req.token st fun _ st =>
    let st := st.record (.repo "countDocuments")
    let totalCount := st.users.length
    let st := st.record (.repo "find")
    let users := st.users
    { response := some ⟨200, .users totalCount (users.map User.toJSON) users.length⟩, state := st }

/-- The route `GET /personal/me`. -/
def getPersonalMe (env : Env) (req : Request Unit) (st : State) : Outcome :=
  guarded env ["admin", "user"] req.token st fun user st =>
    let st := st.record (.repo "findById")
    match findById env st.users user._id with
    | .ok found =>
      { response := some ⟨200, .user (found.map fun u => select ["-password", "-__v"] u.toJSON)⟩,
        state := st }
    | .error e => { response := some ⟨500, .message (env.errorMessage e)⟩, state := st }

/-- The route `GET /logout` (the two cookies it clears live on the client). -/
def logout (_req : Request Unit) (st : State) : Outcome :=
  { response := some ⟨200, .message "successfully logout"⟩, state := st }

/-- The route `DELETE /delete/:id`. -/
def deleteUser (env : Env) (req : Request Unit) (st : State) : Outcome :=
  guarded env ["admin", "user"] req.token st fun _ st =>
    let st := st.record (.repo "findOneAndUpdate")
    match findOneAndUpdate env st.users req.params_id (.object { status := some "deleted" }) with
    | .ok (_, users) =>
      { response := some ⟨200, .message "User successfully deleted!"⟩,
        state := { st with users := users } }
    | .error _ => { response := none, state := st }

/-- The route `PUT /update/profile`. -/
def updateProfile (env : Env) (req : Request UpdateBody) (st : State) : Outcome :=
  guarded env ["admin", "user"] req.token st fun user st =>
    let updateValues := req.body
    let st := st.record (.repo "findOneAndUpdate")
    match findOneAndUpdate env st.users user._id updateValues with
    | .ok (none, users) =>
      { response := some ⟨404, .message "User not found"⟩, state := { st with users := users } }
    | .ok (some updatedUser, users) =>
      { response := some ⟨200, .updatedUser (select ["-__v"] updatedUser.toJSON)
          "User successfully updated"⟩,
        state := { st with users := users } }
    | .error e =>
      if e.code = some 11000 then
        { response := some ⟨400, .message "Duplicated Email, there is already an existing Email"⟩,
          state := st }
      else
        { response := some ⟨500, .message
            (if env.errorMessage e = "" then "An unexpected error occurred"
             else env.errorMessage e)⟩,
          state := st }

/-- Modelled from the spec: the document `new User(...)` builds in `POST /create`; `status`
starts as `active` (section 3), no avatar is set and the version field starts at 0. -/
def newUser (env : Env) (users : List User) (body : CreateBody) (hashPassword : String) : User :=
  { _id := env.newObjectId users
    firstname := body.firstname
    lastname := body.lastname
    email := body.email
    phone := some body.phone
    address := some body.address
    avatar := none
    password := hashPassword
    role := "user"
    status := "active"
    __v := 0 }

/-- The route `POST /create`. -/
def createUser (env : Env) (req : Request CreateBody) (st : State) : Outcome :=
  guarded env ["admin"] req.token st fun _ st =>
    let st := st.record (.repo "findOne")
    match findOneByEmail st.users req.body.email with
    | some _ => { response := some ⟨400, .text "Email already exists"⟩, state := st }
    | none =>
      let salt := env.genSalt saltLength
      let hashPassword := env.hash req.body.password salt
      let user := newUser env st.users req.body hashPassword
      let st := st.record (.repo "save")
      match save st.users user with
      | .ok users =>
        { response := some ⟨200, .created (deletePassword user.toJSON) "User successfully created"⟩,
          state := { st with users := users } }
      | .error err => { response := some ⟨400, .storeError err⟩, state := st }

/-- The route `PUT /update/user/:id`. -/
def updateUserById (env : Env) (req : Request UpdateBody) (st : State) : Outcome :=
  guarded env ["admin"] req.token st fun _ st =>
    let updateValues := req.body
    let st := st.record (.repo "findOneAndUpdate")
    match findOneAndUpdate env st.users req.params_id updateValues with
    | .ok (updateUser, users) =>
      { response := some ⟨200, .offer "User successfully updated" (updateUser.map User.toJSON)⟩,
        state := { st with users := users } }
    | .error e => { response := some ⟨500, .message (env.errorMessage e)⟩, state := st }

/-- The handler of `PUT /upload/avatarFile`; `path` is `req.file.path`, absent when the
request had no file part (reading `req.file.path` then throws). -/
def avatarHandler (env : Env) (user : Identity) (path : Option String) (st : State) : Outcome :=
  match path with
  | none => { response := none, state := st }
  | some path =>
    let uri := imageUri env path
    let st := st.record (.repo "findOneAndUpdate")
    match findOneAndUpdate env st.users user._id (.object { avatar := some uri }) with
    | .ok (updateAvatar, users) =>
      { response := some ⟨200, .updateAvatar
          (updateAvatar.map fun u => select ["-password", "-__v"] u.toJSON)⟩,
        state := { st with users := users } }
    | .error _ => { response := none, state := st }

/-- The route `PUT /upload/avatarFile`: `uploadProfile.single('avatarFile')` is listed before
`verifyToken(['admin', 'user'])`. -/
def uploadAvatarFile (env : Env) (req : Request Unit) (st : State) : Outcome :=
  match uploadProfile_single env req.file st with
  | (.error res, st) => { response := some res, state := st }
  | (.ok path, st) =>
    guarded env ["admin", "user"] req.token st fun user st => avatarHandler env user path st

/-- The route `GET /getUser/:id`. -/
def getUser (env : Env) (req : Request Unit) (st : State) : Outcome :=
  guarded env ["admin"] req.token st fun _ st =>
    if !isValidObjectId env req.params_id then
      { response := some ⟨400, .text "Malformed user id"⟩, state := st }
    else
      let st := st.record (.repo "findById")
      match findById env st.users req.params_id with
      | .ok none => { response := some ⟨400, .text "User not found!"⟩, state := st }
      | .ok (some user) =>
        { response := some ⟨200, .user (some (select ["-password", "-__v"] user.toJSON))⟩,
          state := st }
      | .error _ => { response := none, state := st }

/-! ## A concrete environment and state -/

/-- The value of a hexadecimal digit. -/
def hexValue (c : Char) : Option Nat :=
  if '0' ≤ c ∧ c ≤ '9' then some (c.toNat - 48)
  else if 'a' ≤ c ∧ c ≤ 'f' then some (c.toNat - 87)
  else if 'A' ≤ c ∧ c ≤ 'F' then some (c.toNat - 55)
  else none

/-- The ObjectId cast on strings of 24 hexadecimal digits. -/
def parseObjectId (s : String) : Option ObjectId :=
  if s.data.length = 24 then
    (s.data.foldl (fun acc c => acc.bind fun a => (hexValue c).map fun d => 16 * a + d)
      (some 0)).map ObjectId.mk
  else none

/-- The largest stored identifier value. -/
def maxId (users : List User) : Nat :=
  (users.map fun u => u._id.value).foldr max 0

/-- Three credentials: an admin, a user and a caller whose role is outside the role set. -/
def sampleResolve (t : String) : Option Identity :=
  if t = "admin-token" then some ⟨"0000000000000000000000a1", "admin"⟩
  else if t = "user-token" then some ⟨"0000000000000000000000b2", "user"⟩
  else if t = "guest-token" then some ⟨"0000000000000000000000c3", "guest"⟩
  else none

/-- A concrete environment. Its store knows no update operator other than `$set` and no update
pipeline: it refuses them. -/
def sampleEnv : Env where
  castObjectId := parseObjectId
  resolveToken := sampleResolve
  genSalt := fun cost => "salt" ++ toString cost
  hash := fun plaintext salt => "hash(" ++ plaintext ++ "," ++ salt ++ ")"
  newObjectId := fun users => ⟨maxId users + 1⟩
  newObjectId_fresh := by
    have le_maxId : ∀ (users : List User) (u : User), u ∈ users → u._id.value ≤ maxId users := by
      intro users
      induction users with
      | nil => intro u h; cases h
      | cons w ws ih =>
        intro u h
        simp only [maxId, List.map_cons, List.foldr_cons]
        rcases List.mem_cons.mp h with rfl | h
        · exact le_max_left _ _
        · exact le_trans (ih u h) (le_max_right _ _)
    intro users u h e
    have h1 := le_maxId users u h
    have h2 := congrArg ObjectId.value e
    simp only at h2
    omega
  uuid := "7f3c-91ab"
  now := 1700000000000
  serverUrl := "http://localhost:5000"
  errorMessage := fun e => match e with
    | .castError => "Cast to ObjectId failed"
    | .duplicateKey => "E11000 duplicate key error"
    | .badUpdate => "Unknown modifier"
  applyOperators := fun _ _ => .error .badUpdate

/-- The stored record of the user caller of `sampleResolve`. -/
def sampleUser : User :=
  { _id := ⟨0xb2⟩, firstname := "Ada", lastname := "Lovelace", email := "ada@example.com",
    phone := none, address := none, avatar := none, password := "hash(secret,salt10)",
    role := "user", status := "active", __v := 0 }

/-- A state with one stored user, no stored file and an empty log. -/
def sampleState : State :=
  { users := [sampleUser], files := [], log := [] }

/-- The value of a digit string read as a decimal numeral, most significant digit first. -/
def digitsValue (ds : List Char) : Nat :=
  ds.foldl (fun acc c => 10 * acc + (c.toNat - 48)) 0

/-! ## Lemmas on the model layer and the middlewares -/

theorem guarded_ok {env : Env} {roles : List String} {token : Option String} {st : State}
    {next : Identity → State → Outcome} {user : Identity}
    (h : verifyToken env roles token = .ok user) :
    guarded env roles token st next = next user (st.record (.verifyToken roles)) := by
  simp [guarded, h]

theorem guarded_error {env : Env} {roles : List String} {token : Option String} {st : State}
    {next : Identity → State → Outcome} {e : AuthError}
    (h : verifyToken env roles token = .error e) :
    guarded env roles token st next =
      { response := some (rejection e), state := st.record (.verifyToken roles) } := by
  simp [guarded, h]

theorem updateFirst_length (p : User → Bool) (f : User → User) (users : List User) :
    (updateFirst p f users).length = users.length := by
  induction users with
  | nil => rfl
  | cons w ws ih =>
    simp only [updateFirst]
    split <;> simp [ih]

theorem updateFirst_map {α : Type} (p : User → Bool) (f : User → User) (g : User → α)
    (users : List User) (u : User) (h : users.find? p = some u) (hg : g (f u) = g u) :
    (updateFirst p f users).map g = users.map g := by
  induction users with
  | nil => simp at h
  | cons w ws ih =>
    simp only [updateFirst]
    by_cases hp : p w = true
    · simp only [List.find?_cons, hp, Option.some.injEq] at h
      subst h
      simp [hp, hg]
    · simp only [List.find?_cons, hp] at h
      simp [hp, ih h]

theorem updateFirst_find_same (p : User → Bool) (f : User → User) (users : List User) (u : User)
    (h : users.find? p = some u) (hp : p (f u) = true) :
    (updateFirst p f users).find? p = some (f u) := by
  induction users with
  | nil => simp at h
  | cons w ws ih =>
    simp only [updateFirst]
    by_cases hw : p w = true
    · simp only [List.find?_cons, hw, Option.some.injEq] at h
      subst h
      simp [hw, hp]
    · simp only [List.find?_cons, hw] at h
      simp [hw, ih h]

theorem updateFirst_find_other (p q : User → Bool) (f : User → User) (users : List User)
    (h : ∀ w, p w = true → q w = false ∧ q (f w) = false) :
    (updateFirst p f users).find? q = users.find? q := by
  induction users with
  | nil => rfl
  | cons w ws ih =>
    simp only [updateFirst]
    by_cases hw : p w = true
    · obtain ⟨h1, h2⟩ := h w hw
      simp [hw, List.find?_cons, h1, h2]
    · simp [hw, List.find?_cons, ih]

theorem updateFirst_getElem (p : User → Bool) (f : User → User) (users : List User)
    (i : Nat) (w : User) (h : users[i]? = some w) (hp : p w = false) :
    (updateFirst p f users)[i]? = some w := by
  induction users generalizing i with
  | nil => simp at h
  | cons x xs ih =>
    simp only [updateFirst]
    cases i with
    | zero =>
      simp only [List.getElem?_cons_zero, Option.some.injEq] at h
      subst h
      simp [hp]
    | succ j =>
      simp only [List.getElem?_cons_succ] at h
      split
      · simpa using h
      · simpa using ih j h

/-- An update document with no operator sets its plain fields. -/
theorem applyBody_flat (env : Env) (u : User) (v : UpdateValues) (h : v.operators = []) :
    applyBody env u (.object v) = .ok (applyUpdate u v) := by
  simp [applyBody, h]

/-- The results of `findOneAndUpdate`: a cast error, no match, a refused update, or the first
match replaced by the updated document. -/
theorem findOneAndUpdate_cases (env : Env) (users : List User) (id : String) (body : UpdateBody) :
    (env.castObjectId id = none ∧ findOneAndUpdate env users id body = .error .castError) ∨
    (∃ oid, env.castObjectId id = some oid ∧ users.find? (fun u => u._id = oid) = none ∧
      findOneAndUpdate env users id body = .ok (none, users)) ∨
    (∃ oid u e, env.castObjectId id = some oid ∧ users.find? (fun u => u._id = oid) = some u ∧
      (applyBody env u body = .error e ∨
        ∃ u', applyBody env u body = .ok u' ∧ u'.email ≠ u.email ∧ e = .duplicateKey) ∧
      findOneAndUpdate env users id body = .error e) ∨
    (∃ oid u u', env.castObjectId id = some oid ∧ users.find? (fun u => u._id = oid) = some u ∧
      applyBody env u body = .ok u' ∧
      (u'.email = u.email ∨ ∀ w ∈ users, w.email ≠ u'.email) ∧
      findOneAndUpdate env users id body =
        .ok (some u', updateFirst (fun w => w._id = oid) (fun _ => u') users)) := by
  cases hc : env.castObjectId id with
  | none => exact Or.inl ⟨rfl, by simp [findOneAndUpdate, hc]⟩
  | some oid =>
    right
    cases hf : users.find? (fun u => u._id = oid) with
    | none => exact Or.inl ⟨oid, rfl, hf, by simp [findOneAndUpdate, hc, hf]⟩
    | some u =>
      right
      cases ha : applyBody env u body with
      | error e =>
        exact Or.inl ⟨oid, u, e, rfl, hf, Or.inl ha, by simp only [findOneAndUpdate, hc, hf, ha]⟩
      | ok u' =>
        by_cases hcond : u'.email ≠ u.email ∧ users.any (fun w => w.email = u'.email) = true
        · exact Or.inl ⟨oid, u, .duplicateKey, rfl, hf, Or.inr ⟨u', ha, hcond.1, rfl⟩,
            by simp only [findOneAndUpdate, hc, hf, ha]; rw [if_pos hcond]⟩
        · refine Or.inr ⟨oid, u, u', rfl, hf, ha, ?_,
            by simp only [findOneAndUpdate, hc, hf, ha]; rw [if_neg hcond]⟩
          by_cases he : u'.email = u.email
          · exact Or.inl he
          · right
            intro w hw hwe
            apply hcond
            refine ⟨he, ?_⟩
            simp only [List.any_eq_true, decide_eq_true_eq]
            exact ⟨w, hw, hwe⟩

/-- An update that leaves the value of `g` on the matched document alone leaves the values of
`g` over the whole collection alone. -/
theorem findOneAndUpdate_map {α : Type} (env : Env) (users users' : List User) (id : String)
    (body : UpdateBody) (found : Option User) (g : User → α)
    (hg : ∀ u u', applyBody env u body = .ok u' → g u' = g u)
    (h : findOneAndUpdate env users id body = .ok (found, users')) :
    users'.map g = users.map g := by
  rcases findOneAndUpdate_cases env users id body with
    ⟨_, h1⟩ | ⟨oid, _, _, h1⟩ | ⟨oid, u, e, _, _, _, h1⟩ | ⟨oid, u, u', _, hf, ha, _, h1⟩
  · rw [h1] at h; cases h
  · rw [h1] at h; cases h; rfl
  · rw [h1] at h; cases h
  · rw [h1] at h
    cases h
    exact updateFirst_map _ _ g users u hf (hg u u' ha)

/-! ## Lemmas on asset naming -/

theorem jsSplit_ne_nil (sep : Char) (l : List Char) : jsSplit sep l ≠ [] := by
  cases l with
  | nil => simp [jsSplit]
  | cons c cs =>
    unfold jsSplit
    split
    · simp
    · split <;> simp

theorem jsSplit_no_sep (sep : Char) (l : List Char) (h : sep ∉ l) : jsSplit sep l = [l] := by
  induction l with
  | nil => simp [jsSplit]
  | cons c cs ih =>
    simp only [List.mem_cons, not_or] at h
    have hc : ¬ c = sep := fun e => h.1 e.symm
    simp [jsSplit, hc, ih h.2]

theorem jsSplit_append_sep (sep : Char) (l r : List Char) (h : sep ∉ l) :
    jsSplit sep (l ++ sep :: r) = l :: jsSplit sep r := by
  induction l with
  | nil => simp [jsSplit]
  | cons c cs ih =>
    simp only [List.mem_cons, not_or] at h
    have hc : ¬ c = sep := fun e => h.1 e.symm
    simp [jsSplit, hc, ih h.2]

theorem fileExt_of_subtype (ty sub : String) (hty : '/' ∉ ty.data) (hsub : '/' ∉ sub.data) :
    fileExt (ty ++ "/" ++ sub) = sub := by
  have h : (ty ++ "/" ++ sub).data = ty.data ++ '/' :: sub.data := by
    simp [String.data_append]
  simp [fileExt, h, jsSplit_append_sep _ _ _ hty, jsSplit_no_sep _ _ hsub]

theorem fileExt_of_subtype_more (ty sub rest : String) (hty : '/' ∉ ty.data)
    (hsub : '/' ∉ sub.data) : fileExt (ty ++ "/" ++ sub ++ "/" ++ rest) = sub := by
  have h : (ty ++ "/" ++ sub ++ "/" ++ rest).data
      = ty.data ++ '/' :: (sub.data ++ '/' :: rest.data) := by
    simp [String.data_append]
  simp only [fileExt, h, jsSplit_append_sep _ _ _ hty, jsSplit_append_sep _ _ _ hsub]
  simp

theorem digitChar_isDigit (n : Nat) : (Nat.digitChar (n % 10)).isDigit = true := by
  have h : n % 10 < 10 := Nat.mod_lt _ (by decide)
  generalize n % 10 = d at h
  interval_cases d <;> decide

theorem digitChar_value (d : Nat) (h : d < 10) : (Nat.digitChar d).toNat - 48 = d := by
  interval_cases d <;> rfl

theorem toDigitsCore_append (fuel n : Nat) (ds : List Char) :
    Nat.toDigitsCore 10 fuel n ds = Nat.toDigitsCore 10 fuel n [] ++ ds := by
  induction fuel generalizing n ds with
  | zero => simp [Nat.toDigitsCore]
  | succ f ih =>
    simp only [Nat.toDigitsCore]
    split
    · simp
    · rw [ih (n / 10) (Nat.digitChar (n % 10) :: ds), ih (n / 10) [Nat.digitChar (n % 10)]]
      simp

theorem toDigitsCore_isDigit (fuel n : Nat) :
    ∀ c ∈ Nat.toDigitsCore 10 fuel n [], c.isDigit = true := by
  induction fuel generalizing n with
  | zero => simp [Nat.toDigitsCore]
  | succ f ih =>
    simp only [Nat.toDigitsCore]
    split
    · intro c hc
      rw [List.mem_singleton] at hc
      rw [hc]
      exact digitChar_isDigit n
    · rw [toDigitsCore_append]
      intro c hc
      rcases List.mem_append.mp hc with hc | hc
      · exact ih _ c hc
      · rw [List.mem_singleton] at hc
        rw [hc]
        exact digitChar_isDigit n

theorem digitsValue_append_one (ds : List Char) (c : Char) :
    digitsValue (ds ++ [c]) = 10 * digitsValue ds + (c.toNat - 48) := by
  simp [digitsValue, List.foldl_append]

theorem digitsValue_toDigitsCore (fuel n : Nat) (h : n < fuel) :
    digitsValue (Nat.toDigitsCore 10 fuel n []) = n := by
  induction fuel generalizing n with
  | zero => omega
  | succ f ih =>
    simp only [Nat.toDigitsCore]
    split
    · have hn : n < 10 := by omega
      have : n % 10 = n := Nat.mod_eq_of_lt hn
      simp [digitsValue, this, digitChar_value n hn]
    · rw [toDigitsCore_append, digitsValue_append_one, ih (n / 10) (by omega),
        digitChar_value _ (Nat.mod_lt _ (by decide))]
      omega

/-- The rendering of a number in a template literal is its decimal numeral. -/
theorem digitsValue_toString (t : Nat) : digitsValue (toString t).data = t := by
  simp only [toString, Nat.repr, Nat.toDigits, List.asString]
  exact digitsValue_toDigitsCore (t + 1) t (by omega)

theorem toString_isDigit (t : Nat) : ∀ c ∈ (toString t).data, c.isDigit = true := by
  simp only [toString, Nat.repr, Nat.toDigits, List.asString]
  exact toDigitsCore_isDigit _ _

theorem toString_data_injective (a b : Nat) (h : (toString a).data = (toString b).data) :
    a = b := by
  rw [← digitsValue_toString a, ← digitsValue_toString b, h]

theorem toString_data_no_dash (a : Nat) : '-' ∉ (toString a).data := by
  intro h
  have := toString_isDigit a '-' h
  revert this
  decide

theorem append_sep_cancel (a : Char) (l₁ l₂ m₁ m₂ : List Char) (h₁ : a ∉ m₁) (h₂ : a ∉ m₂)
    (h : l₁ ++ a :: m₁ = l₂ ++ a :: m₂) : l₁ = l₂ ∧ m₁ = m₂ := by
  induction m₁ using List.reverseRecOn generalizing m₂ with
  | nil =>
    cases m₂ using List.reverseRecOn with
    | nil => simpa using h
    | append_singleton m₂ c _ =>
      have h' : l₁ ++ [a] = (l₂ ++ a :: m₂) ++ [c] := by simpa using h
      have := List.append_inj_right' h' rfl
      simp at this
      subst this
      simp at h₂
  | append_singleton m₁ c ih =>
    cases m₂ using List.reverseRecOn with
    | nil =>
      have h' : (l₁ ++ a :: m₁) ++ [c] = l₂ ++ [a] := by simpa using h
      have := List.append_inj_right' h' rfl
      simp at this
      subst this
      simp at h₁
    | append_singleton m₂ d _ =>
      have h' : (l₁ ++ a :: m₁) ++ [c] = (l₂ ++ a :: m₂) ++ [d] := by simpa using h
      have hr := List.append_inj_right' h' rfl
      have hl := List.append_inj_left' h' rfl
      simp at hr
      subst hr
      simp only [List.mem_append, not_or] at h₁ h₂
      obtain ⟨e1, e2⟩ := ih m₂ h₁.1 h₂.1 hl
      exact ⟨e1, by rw [e2]⟩

theorem filename_eq_imp (mimetype r₁ r₂ : String) (t₁ t₂ : Nat)
    (h : filename r₁ t₁ mimetype = filename r₂ t₂ mimetype) : r₁ = r₂ ∧ t₁ = t₂ := by
  have hd := congrArg String.data h
  simp only [filename, String.data_append] at hd
  have hd' : r₁.data ++ '-' :: (toString t₁).data = r₂.data ++ '-' :: (toString t₂).data := by
    have h1 := List.append_cancel_right hd
    have h2 := List.append_cancel_right h1
    simpa using h2
  obtain ⟨e1, e2⟩ :=
    append_sep_cancel '-' _ _ _ _ (toString_data_no_dash _) (toString_data_no_dash _) hd'
  exact ⟨String.ext e1, toString_data_injective _ _ e2⟩

/-! ## Lemmas on the routes -/

theorem record_users (st : State) (e : Event) : (st.record e).users = st.users := rfl

theorem record_files (st : State) (e : Event) : (st.record e).files = st.files := rfl

theorem record_log (st : State) (e : Event) : (st.record e).log = st.log ++ [e] := rfl

/-- A caller the verifier rejects never reaches the handler of a route whose first middleware
is the verifier: the only effect is the verifier call. -/
theorem rejected_before_handler (env : Env) (st : State) (e : AuthError) :
    (∀ req : Request Unit, verifyToken env ["admin"] req.token = .error e →
      getUsers env req st = ⟨some (rejection e), st.record (.verifyToken ["admin"])⟩) ∧
    (∀ req : Request Unit, verifyToken env ["admin", "user"] req.token = .error e →
      getPersonalMe env req st
        = ⟨some (rejection e), st.record (.verifyToken ["admin", "user"])⟩) ∧
    (∀ req : Request Unit, verifyToken env ["admin", "user"] req.token = .error e →
      deleteUser env req st = ⟨some (rejection e), st.record (.verifyToken ["admin", "user"])⟩) ∧
    (∀ req : Request UpdateBody, verifyToken env ["admin", "user"] req.token = .error e →
      updateProfile env req st
        = ⟨some (rejection e), st.record (.verifyToken ["admin", "user"])⟩) ∧
    (∀ req : Request CreateBody, verifyToken env ["admin"] req.token = .error e →
      createUser env req st = ⟨some (rejection e), st.record (.verifyToken ["admin"])⟩) ∧
    (∀ req : Request UpdateBody, verifyToken env ["admin"] req.token = .error e →
      updateUserById env req st = ⟨some (rejection e), st.record (.verifyToken ["admin"])⟩) ∧
    (∀ req : Request Unit, verifyToken env ["admin"] req.token = .error e →
      getUser env req st = ⟨some (rejection e), st.record (.verifyToken ["admin"])⟩) := by
  refine ⟨?_, ?_, ?_, ?_, ?_, ?_, ?_⟩ <;> intro req h
  · simp only [getUsers, guarded_error h]
  · simp only [getPersonalMe, guarded_error h]
  · simp only [deleteUser, guarded_error h]
  · simp only [updateProfile, guarded_error h]
  · simp only [createUser, guarded_error h]
  · simp only [updateUserById, guarded_error h]
  · simp only [getUser, guarded_error h]

/-- The three routes that project with `-password -__v` send neither field. -/
theorem projected_routes_strip (env : Env) (req : Request Unit) (st : State) (s : Nat)
    (d : UserJson) :
    ((getPersonalMe env req st).response = some ⟨s, .user (some d)⟩ →
      d.password = none ∧ d.__v = none) ∧
    ((getUser env req st).response = some ⟨s, .user (some d)⟩ →
      d.password = none ∧ d.__v = none) ∧
    ((uploadAvatarFile env req st).response = some ⟨s, .updateAvatar (some d)⟩ →
      d.password = none ∧ d.__v = none) := by
  refine ⟨?_, ?_, ?_⟩
  · intro h
    simp only [getPersonalMe, guarded] at h
    split at h
    · rename_i e _
      cases e <;> simp [rejection] at h
    · split at h
      · rename_i found _
        cases found with
        | none => simp at h
        | some u =>
          simp only [Option.map_some', Option.some.injEq, Response.mk.injEq, Body.user.injEq]
            at h
          rw [← h.2]
          simp [select]
      · simp at h
  · intro h
    simp only [getUser, guarded] at h
    split at h
    · rename_i e _
      cases e <;> simp [rejection] at h
    · split at h
      · simp at h
      · split at h
        · simp at h
        · simp only [Option.some.injEq, Response.mk.injEq, Body.user.injEq] at h
          rw [← h.2]
          simp [select]
        · simp at h
  · intro h
    simp only [uploadAvatarFile] at h
    split at h
    · rename_i res _ hup
      simp only [uploadProfile_single] at hup
      split at hup
      · simp at hup
      · split at hup
        · simp at hup
        · simp only [Prod.mk.injEq, Except.error.injEq] at hup
          rw [← hup.1] at h
          simp at h
    · simp only [guarded] at h
      split at h
      · rename_i e _
        cases e <;> simp [rejection] at h
      · simp only [avatarHandler] at h
        split at h
        · simp at h
        · split at h
          · rename_i found _ _
            cases found with
            | none => simp at h
            | some u =>
              simp only [Option.map_some', Option.some.injEq, Response.mk.injEq,
                Body.updateAvatar.injEq] at h
              rw [← h.2]
              simp [select]
          · simp at h

theorem updateProfile_users_map {α : Type} (env : Env) (req : Request UpdateBody) (st : State)
    (g : User → α) (hg : ∀ u u', applyBody env u req.body = .ok u' → g u' = g u) :
    (updateProfile env req st).state.users.map g = st.users.map g := by
  simp only [updateProfile, guarded]
  split
  · rfl
  · rename_i user _
    cases hres : findOneAndUpdate env
        ((st.record (.verifyToken ["admin", "user"])).record (.repo "findOneAndUpdate")).users
        user._id req.body with
    | error e =>
      simp only
      split <;> rfl
    | ok p =>
      obtain ⟨found, users'⟩ := p
      have := findOneAndUpdate_map env _ users' user._id req.body found g hg hres
      cases found <;> simpa using this

theorem findOneByEmail_none (users : List User) (email : String)
    (h : ∀ u ∈ users, u.email ≠ email) : findOneByEmail users email = none := by
  simp only [findOneByEmail, List.find?_eq_none, decide_eq_true_eq]
  exact h

theorem findOneByEmail_isSome (users : List User) (email : String)
    (h : ∃ u ∈ users, u.email = email) : ∃ w, findOneByEmail users email = some w := by
  cases hf : findOneByEmail users email with
  | some w => exact ⟨w, rfl⟩
  | none =>
    simp only [findOneByEmail, List.find?_eq_none, decide_eq_true_eq] at hf
    obtain ⟨u, hu, he⟩ := h
    exact absurd he (hf u hu)

theorem save_fresh (env : Env) (users : List User) (body : CreateBody) (hashPassword : String)
    (h : ∀ u ∈ users, u.email ≠ body.email) :
    save users (newUser env users body hashPassword)
      = .ok (users ++ [newUser env users body hashPassword]) := by
  have hany : users.any (fun w => w._id = (newUser env users body hashPassword)._id ||
      w.email = (newUser env users body hashPassword).email) = false := by
    rw [List.any_eq_false]
    intro w hw
    have h1 := env.newObjectId_fresh users w hw
    have h2 := h w hw
    simp [newUser, h1, h2]
  simp [save, hany]

theorem save_ok (users users' : List User) (u : User) (h : save users u = .ok users') :
    users' = users ++ [u] := by
  simp only [save] at h
  split at h
  · cases h
  · cases h; rfl

theorem createUser_existing (env : Env) (req : Request CreateBody) (st : State) (user : Identity)
    (hauth : verifyToken env ["admin"] req.token = .ok user)
    (h : ∃ u ∈ st.users, u.email = req.body.email) :
    createUser env req st = ⟨some ⟨400, .text "Email already exists"⟩,
      (st.record (.verifyToken ["admin"])).record (.repo "findOne")⟩ := by
  obtain ⟨w, hw⟩ := findOneByEmail_isSome st.users req.body.email h
  simp only [createUser, guarded_ok hauth, record_users, hw]

theorem createUser_fresh (env : Env) (req : Request CreateBody) (st : State) (user : Identity)
    (hauth : verifyToken env ["admin"] req.token = .ok user)
    (h : ∀ u ∈ st.users, u.email ≠ req.body.email) :
    createUser env req st =
      ⟨some ⟨200, .created
          (deletePassword (newUser env st.users req.body
            (env.hash req.body.password (env.genSalt saltLength))).toJSON)
          "User successfully created"⟩,
        { (((st.record (.verifyToken ["admin"])).record (.repo "findOne")).record
            (.repo "save")) with
          users := st.users ++ [newUser env st.users req.body
            (env.hash req.body.password (env.genSalt saltLength))] }⟩ := by
  simp only [createUser, guarded_ok hauth, record_users, findOneByEmail_none _ _ h,
    save_fresh env st.users req.body _ h]

/-! ## Asset naming: format and injectivity -/

/-- C9: for a media type `ty/sub` (also when more segments follow `sub`), a random id `r` and
a millisecond timestamp `t`, the asset naming function returns exactly
`profile-` ++ r ++ `-` ++ decimal(t) ++ `.` ++ sub, where the rendering of `t` is its decimal
numeral (digits only, of value `t`), and the storage directory is `public/img/profiles`
whatever the file. -/
theorem filename_format (r : String) (t : Nat) (ty sub rest : String) (file : UploadedFile)
    (hty : '/' ∉ ty.data) (hsub : '/' ∉ sub.data) :
    filename r t (ty ++ "/" ++ sub) = "profile-" ++ r ++ "-" ++ toString t ++ "." ++ sub ∧
    filename r t (ty ++ "/" ++ sub ++ "/" ++ rest)
      = "profile-" ++ r ++ "-" ++ toString t ++ "." ++ sub ∧
    (∀ c ∈ (toString t).data, c.isDigit = true) ∧
    digitsValue (toString t).data = t ∧
    destination file = "public/img/profiles" := by
  refine ⟨?_, ?_, toString_isDigit t, digitsValue_toString t, rfl⟩
  · simp only [filename, fileExt_of_subtype ty sub hty hsub]
  · simp only [filename, fileExt_of_subtype_more ty sub rest hty hsub]

theorem filename_format_witness :
    ('/' ∉ "image".data ∧ '/' ∉ "png".data) ∧
    (filename "7f3c-91ab" 1700000000000 ("image" ++ "/" ++ "png")
        = "profile-" ++ "7f3c-91ab" ++ "-" ++ toString 1700000000000 ++ "." ++ "png" ∧
      filename "7f3c-91ab" 1700000000000 ("image" ++ "/" ++ "png" ++ "/" ++ "x")
        = "profile-" ++ "7f3c-91ab" ++ "-" ++ toString 1700000000000 ++ "." ++ "png" ∧
      (∀ c ∈ (toString 1700000000000).data, c.isDigit = true) ∧
      digitsValue (toString 1700000000000).data = 1700000000000 ∧
      destination ⟨"image/png", 1024⟩ = "public/img/profiles") :=
  ⟨⟨by decide, by decide⟩,
    filename_format "7f3c-91ab" 1700000000000 "image" "png" "x" ⟨"image/png", 1024⟩
      (by decide) (by decide)⟩

/-- C10: for a fixed media type, two (random id, timestamp) pairs that differ give different
filenames: the asset naming function is injective in the pair. -/
theorem filename_collision_free (mimetype r₁ r₂ : String) (t₁ t₂ : Nat)
    (h : (r₁, t₁) ≠ (r₂, t₂)) : filename r₁ t₁ mimetype ≠ filename r₂ t₂ mimetype := by
  intro e
  obtain ⟨e1, e2⟩ := filename_eq_imp mimetype r₁ r₂ t₁ t₂ e
  exact h (by rw [e1, e2])

theorem filename_collision_free_witness :
    (("a-1", 2) : String × Nat) ≠ ("a", 12) ∧
    filename "a-1" 2 "image/png" ≠ filename "a" 12 "image/png" :=
  ⟨by decide, filename_collision_free "image/png" "a-1" "a" 2 12 (by decide)⟩

/-! ## Response shaping -/

/-- C1 (violated by the code): with one stored user, the list route, the self profile update
and the admin update by id each send the stored password hash; the list route and the admin
update also send `__v`; and two states that differ only in the stored hash get different
list responses. -/
theorem responses_expose_password_hash :
    sampleUser.toJSON.password = some "hash(secret,salt10)" ∧
    sampleUser.toJSON.__v = some 0 ∧
    (getUsers sampleEnv ⟨some "admin-token", "", (), none⟩ sampleState).response
      = some ⟨200, .users 1 [sampleUser.toJSON] 1⟩ ∧
    (updateProfile sampleEnv ⟨some "user-token", "", .object { phone := some "555" }, none⟩
        sampleState).response
      = some ⟨200, .updatedUser
          { sampleUser.toJSON with phone := some "555", __v := none }
          "User successfully updated"⟩ ∧
    (updateUserById sampleEnv
        ⟨some "admin-token", "0000000000000000000000b2", .object { phone := some "555" }, none⟩
        sampleState).response
      = some ⟨200, .offer "User successfully updated"
          (some { sampleUser.toJSON with phone := some "555" })⟩ ∧
    (getUsers sampleEnv ⟨some "admin-token", "", (), none⟩
        { sampleState with users := [{ sampleUser with password := "hash(other,salt10)" }] }).response
      ≠ (getUsers sampleEnv ⟨some "admin-token", "", (), none⟩ sampleState).response := by
  decide

/-! ## Self profile update -/

/-- C2 (as stated, refuted): a self profile update whose body carries a role and a password
replaces the stored role and the stored password of the caller's record; so does a body whose
only key is the update operator `$set`, which carries no role field and no password field of
its own. -/
theorem updateProfile_overwrites_role_password :
    (sampleState.users.map fun u => (u._id, u.role, u.password))
      = [(⟨0xb2⟩, "user", "hash(secret,salt10)")] ∧
    ((updateProfile sampleEnv
        ⟨some "user-token", "", .object { role := some "admin", password := some "plain" },
          none⟩
        sampleState).state.users.map fun u => (u._id, u.role, u.password))
      = [(⟨0xb2⟩, "admin", "plain")] ∧
    ((updateProfile sampleEnv
        ⟨some "user-token", "",
          .object { operators := [⟨"$set", [("role", "admin"), ("password", "plain")]⟩] },
          none⟩
        sampleState).state.users.map fun u => (u._id, u.role, u.password))
      = [(⟨0xb2⟩, "admin", "plain")] := by
  decide

/-- C2 (amended): for every caller and every request body that is a JSON object of plain
fields (no key that starts with `$`, so no update operator, and not an update pipeline), a self
profile update whose body carries no role field leaves the stored role of every record (the
caller's included) as it was, and one whose body carries no password field leaves every
stored password hash as it was. -/
theorem updateProfile_role_password_frame (env : Env) (req : Request UpdateBody) (st : State)
    (v : UpdateValues) (hbody : req.body = .object v) (hflat : v.operators = []) :
    (v.role = none →
      ((updateProfile env req st).state.users.map fun u => (u._id, u.role))
        = st.users.map fun u => (u._id, u.role)) ∧
    (v.password = none →
      ((updateProfile env req st).state.users.map fun u => (u._id, u.password))
        = st.users.map fun u => (u._id, u.password)) := by
  constructor
  · intro h
    refine updateProfile_users_map env req st _ (fun u u' hu => ?_)
    rw [hbody, applyBody_flat env u v hflat] at hu
    cases hu
    simp [applyUpdate, h]
  · intro h
    refine updateProfile_users_map env req st _ (fun u u' hu => ?_)
    rw [hbody, applyBody_flat env u v hflat] at hu
    cases hu
    simp [applyUpdate, h]

theorem updateProfile_role_password_frame_witness :
    (UpdateBody.object { phone := some "555" } = .object { phone := some "555" } ∧
      ({ phone := some "555" } : UpdateValues).operators = []) ∧
    ((({ phone := some "555" } : UpdateValues).role = none ∧
      ((updateProfile sampleEnv ⟨some "user-token", "", .object { phone := some "555" }, none⟩
          sampleState).state.users.map fun u => (u._id, u.role))
        = sampleState.users.map fun u => (u._id, u.role)) ∧
    (({ phone := some "555" } : UpdateValues).password = none ∧
      ((updateProfile sampleEnv ⟨some "user-token", "", .object { phone := some "555" }, none⟩
          sampleState).state.users.map fun u => (u._id, u.password))
        = sampleState.users.map fun u => (u._id, u.password))) :=
  ⟨⟨rfl, rfl⟩,
    ⟨rfl, (updateProfile_role_password_frame sampleEnv
      ⟨some "user-token", "", .object { phone := some "555" }, none⟩ sampleState
      { phone := some "555" } rfl rfl).1 rfl⟩,
    ⟨rfl, (updateProfile_role_password_frame sampleEnv
      ⟨some "user-token", "", .object { phone := some "555" }, none⟩ sampleState
      { phone := some "555" } rfl rfl).2 rfl⟩⟩

/-! ## Order of the verifier -/

/-- C3 (violated by the code): on the avatar route the upload middleware runs before the
verifier. A caller whose role is outside the role set, and a caller with no credential, are
rejected only after the uploaded file has been written under the profiles directory; the log
shows the file write before the verifier call. -/
theorem avatar_file_written_before_verifier :
    uploadAvatarFile sampleEnv ⟨some "guest-token", "", (), some ⟨"image/png", 1024⟩⟩ sampleState
      = ⟨some ⟨403, .authError .forbidden⟩,
          { users := [sampleUser],
            files := ["public/img/profiles/profile-7f3c-91ab-1700000000000.png"],
            log := [.fileWrite "public/img/profiles/profile-7f3c-91ab-1700000000000.png",
                    .verifyToken ["admin", "user"]] }⟩ ∧
    uploadAvatarFile sampleEnv ⟨none, "", (), some ⟨"image/png", 1024⟩⟩ sampleState
      = ⟨some ⟨401, .authError .unauthenticated⟩,
          { users := [sampleUser],
            files := ["public/img/profiles/profile-7f3c-91ab-1700000000000.png"],
            log := [.fileWrite "public/img/profiles/profile-7f3c-91ab-1700000000000.png",
                    .verifyToken ["admin", "user"]] }⟩ ∧
    sampleState.files = [] := by
  decide

/-! ## Admin create -/

/-- C4: an admin create whose email is the email of a stored record (whatever its status)
answers 400 `Email already exists` and leaves the stored users as they were; and of two admin
creates with the same email applied one after the other to a collection with no record of
that email, the first succeeds, the second answers 400 `Email already exists`, and the
collection ends with exactly one record of that email. -/
theorem create_duplicate_email_conflict :
    (∀ (env : Env) (req : Request CreateBody) (st : State) (user : Identity),
      verifyToken env ["admin"] req.token = .ok user →
      (∃ u ∈ st.users, u.email = req.body.email) →
      (createUser env req st).response = some ⟨400, .text "Email already exists"⟩ ∧
      (createUser env req st).state.users = st.users ∧
      (createUser env req st).state.files = st.files) ∧
    (∀ (env₁ env₂ : Env) (req₁ req₂ : Request CreateBody) (st : State) (user₁ user₂ : Identity),
      verifyToken env₁ ["admin"] req₁.token = .ok user₁ →
      verifyToken env₂ ["admin"] req₂.token = .ok user₂ →
      req₂.body.email = req₁.body.email →
      (∀ u ∈ st.users, u.email ≠ req₁.body.email) →
      (∃ d, (createUser env₁ req₁ st).response
          = some ⟨200, .created d "User successfully created"⟩) ∧
      (createUser env₂ req₂ (createUser env₁ req₁ st).state).response
          = some ⟨400, .text "Email already exists"⟩ ∧
      ((createUser env₂ req₂ (createUser env₁ req₁ st).state).state.users.filter
          fun u => u.email = req₁.body.email).length = 1) := by
  constructor
  · intro env req st user hauth h
    rw [createUser_existing env req st user hauth h]
    exact ⟨rfl, rfl, rfl⟩
  · intro env₁ env₂ req₁ req₂ st user₁ user₂ h₁ h₂ he hfresh
    rw [createUser_fresh env₁ req₁ st user₁ h₁ hfresh]
    refine ⟨⟨_, rfl⟩, ?_⟩
    have hex : ∃ u ∈ st.users ++ [newUser env₁ st.users req₁.body
        (env₁.hash req₁.body.password (env₁.genSalt saltLength))], u.email = req₂.body.email :=
      ⟨_, List.mem_append_right _ (List.mem_singleton.mpr rfl), by rw [he]; rfl⟩
    rw [createUser_existing env₂ req₂ _ user₂ h₂ hex]
    refine ⟨rfl, ?_⟩
    have hnone : st.users.filter (fun u => u.email = req₁.body.email) = [] := by
      rw [List.filter_eq_nil_iff]
      intro u hu
      simpa using hfresh u hu
    simp [record_users, List.filter_append, hnone, newUser]

theorem create_duplicate_email_conflict_witness :
    ((verifyToken sampleEnv ["admin"] (some "admin-token")
        = .ok ⟨"0000000000000000000000a1", "admin"⟩ ∧
      ∃ u ∈ sampleState.users, u.email = "ada@example.com") ∧
      (createUser sampleEnv
          ⟨some "admin-token", "", ⟨"A", "L", "ada@example.com", "1", "x", "pw", none⟩, none⟩
          sampleState).response = some ⟨400, .text "Email already exists"⟩ ∧
      (createUser sampleEnv
          ⟨some "admin-token", "", ⟨"A", "L", "ada@example.com", "1", "x", "pw", none⟩, none⟩
          sampleState).state.users = sampleState.users ∧
      (createUser sampleEnv
          ⟨some "admin-token", "", ⟨"A", "L", "ada@example.com", "1", "x", "pw", none⟩, none⟩
          sampleState).state.files = sampleState.files) ∧
    ((∀ u ∈ sampleState.users, u.email ≠ "bob@example.com") ∧
      (∃ d, (createUser sampleEnv
          ⟨some "admin-token", "", ⟨"B", "K", "bob@example.com", "1", "x", "pw", none⟩, none⟩
          sampleState).response = some ⟨200, .created d "User successfully created"⟩) ∧
      (createUser sampleEnv
          ⟨some "admin-token", "", ⟨"C", "M", "bob@example.com", "2", "y", "pw2", none⟩, none⟩
          (createUser sampleEnv
            ⟨some "admin-token", "", ⟨"B", "K", "bob@example.com", "1", "x", "pw", none⟩, none⟩
            sampleState).state).response = some ⟨400, .text "Email already exists"⟩ ∧
      ((createUser sampleEnv
          ⟨some "admin-token", "", ⟨"C", "M", "bob@example.com", "2", "y", "pw2", none⟩, none⟩
          (createUser sampleEnv
            ⟨some "admin-token", "", ⟨"B", "K", "bob@example.com", "1", "x", "pw", none⟩, none⟩
            sampleState).state).state.users.filter
          fun u => u.email = "bob@example.com").length = 1) :=
  ⟨⟨⟨rfl, sampleUser, by decide, rfl⟩,
      create_duplicate_email_conflict.1 sampleEnv
        ⟨some "admin-token", "", ⟨"A", "L", "ada@example.com", "1", "x", "pw", none⟩, none⟩
        sampleState ⟨"0000000000000000000000a1", "admin"⟩ rfl ⟨sampleUser, by decide, rfl⟩⟩,
    ⟨by decide,
      create_duplicate_email_conflict.2 sampleEnv sampleEnv
        ⟨some "admin-token", "", ⟨"B", "K", "bob@example.com", "1", "x", "pw", none⟩, none⟩
        ⟨some "admin-token", "", ⟨"C", "M", "bob@example.com", "2", "y", "pw2", none⟩, none⟩
        sampleState ⟨"0000000000000000000000a1", "admin"⟩ ⟨"0000000000000000000000a1", "admin"⟩
        rfl rfl rfl (by decide)⟩⟩

/-- C5: after a successful admin create (status 200), whatever the body carries, the
collection has one more record; its role is `user`, its firstname, lastname, email, phone and
address are those of the body, its stored password is the output of the hasher on the body's
password with the salt generated for cost factor 10, and the user sent back has no password
field. -/
theorem create_persists_user_record (env : Env) (req : Request CreateBody) (st : State)
    (h : (createUser env req st).response.map Response.status = some 200) :
    ∃ u d,
      (createUser env req st).state.users = st.users ++ [u] ∧
      u.role = "user" ∧
      u.firstname = req.body.firstname ∧
      u.lastname = req.body.lastname ∧
      u.email = req.body.email ∧
      u.phone = some req.body.phone ∧
      u.address = some req.body.address ∧
      u.password = env.hash req.body.password (env.genSalt 10) ∧
      (createUser env req st).response = some ⟨200, .created d "User successfully created"⟩ ∧
      d.password = none := by
  cases hv : verifyToken env ["admin"] req.token with
  | error e =>
    simp only [createUser, guarded, hv] at h
    cases e <;> simp [rejection] at h
  | ok user =>
    cases hf : findOneByEmail st.users req.body.email with
    | some w => simp [createUser, guarded, hv, record_users, hf] at h
    | none =>
      cases hs : save st.users (newUser env st.users req.body
          (env.hash req.body.password (env.genSalt saltLength))) with
      | error err => simp [createUser, guarded, hv, record_users, hf, hs] at h
      | ok users' =>
        have hu := save_ok _ _ _ hs
        simp only [createUser, guarded, hv, record_users, hf, hs]
        exact ⟨_, _, hu, rfl, rfl, rfl, rfl, rfl, rfl, rfl, rfl, rfl⟩

theorem create_persists_user_record_witness :
    (createUser sampleEnv
        ⟨some "admin-token", "", ⟨"B", "K", "bob@example.com", "1", "x", "pw", some "admin"⟩,
          none⟩ sampleState).response.map Response.status = some 200 ∧
    ∃ u d,
      (createUser sampleEnv
        ⟨some "admin-token", "", ⟨"B", "K", "bob@example.com", "1", "x", "pw", some "admin"⟩,
          none⟩ sampleState).state.users = sampleState.users ++ [u] ∧
      u.role = "user" ∧
      u.firstname = "B" ∧
      u.lastname = "K" ∧
      u.email = "bob@example.com" ∧
      u.phone = some "1" ∧
      u.address = some "x" ∧
      u.password = sampleEnv.hash "pw" (sampleEnv.genSalt 10) ∧
      (createUser sampleEnv
        ⟨some "admin-token", "", ⟨"B", "K", "bob@example.com", "1", "x", "pw", some "admin"⟩,
          none⟩ sampleState).response
        = some ⟨200, .created d "User successfully created"⟩ ∧
      d.password = none :=
  ⟨by decide,
    create_persists_user_record sampleEnv
      ⟨some "admin-token", "", ⟨"B", "K", "bob@example.com", "1", "x", "pw", some "admin"⟩, none⟩
      sampleState (by decide)⟩

/-! ## Get by id -/

/-- C6: for an admin caller and every id string given to `GET /getUser/:id`: an id that fails
the identifier-format check is answered 400 `Malformed user id` and the only effect is the
verifier call (no repository operation is logged); a well-formed id that no record has is
answered 400 `User not found!`; otherwise the answer is the record with that id, projected
with `-password -__v`. -/
theorem getUser_validates_then_looks_up (env : Env) (req : Request Unit) (st : State)
    (user : Identity) (hauth : verifyToken env ["admin"] req.token = .ok user) :
    (isValidObjectId env req.params_id = false →
      getUser env req st
        = ⟨some ⟨400, .text "Malformed user id"⟩, st.record (.verifyToken ["admin"])⟩ ∧
      ∀ op, Event.repo op ∈ (getUser env req st).state.log → Event.repo op ∈ st.log) ∧
    (∀ oid, isValidObjectId env req.params_id = true → env.castObjectId req.params_id = some oid →
      (∀ u ∈ st.users, u._id ≠ oid) →
      (getUser env req st).response = some ⟨400, .text "User not found!"⟩) ∧
    (∀ oid, isValidObjectId env req.params_id = true → env.castObjectId req.params_id = some oid →
      (∃ u ∈ st.users, u._id = oid) →
      ∃ u ∈ st.users, u._id = oid ∧
        (getUser env req st).response
          = some ⟨200, .user (some (select ["-password", "-__v"] u.toJSON))⟩) := by
  refine ⟨?_, ?_, ?_⟩
  · intro hbad
    have heq : getUser env req st
        = ⟨some ⟨400, .text "Malformed user id"⟩, st.record (.verifyToken ["admin"])⟩ := by
      simp [getUser, guarded_ok hauth, hbad]
    refine ⟨heq, ?_⟩
    intro op hop
    rw [heq] at hop
    simpa [State.record] using hop
  · intro oid hvalid hc hnone
    have hf : st.users.find? (fun u => u._id = oid) = none := by
      simp only [List.find?_eq_none, decide_eq_true_eq]
      exact hnone
    simp [getUser, guarded_ok hauth, hvalid, findById, hc, record_users, hf]
  · intro oid hvalid hc hsome
    cases hf : st.users.find? (fun u => u._id = oid) with
    | none =>
      simp only [List.find?_eq_none, decide_eq_true_eq] at hf
      obtain ⟨u, hu, he⟩ := hsome
      exact absurd he (hf u hu)
    | some u =>
      have hmem := List.mem_of_find?_eq_some hf
      have hid : u._id = oid := by simpa using List.find?_some hf
      refine ⟨u, hmem, hid, ?_⟩
      simp [getUser, guarded_ok hauth, hvalid, findById, hc, record_users, hf]

theorem getUser_validates_then_looks_up_witness :
    verifyToken sampleEnv ["admin"] (some "admin-token")
      = .ok ⟨"0000000000000000000000a1", "admin"⟩ ∧
    (isValidObjectId sampleEnv "not-an-id" = false ∧
      getUser sampleEnv ⟨some "admin-token", "not-an-id", (), none⟩ sampleState
        = ⟨some ⟨400, .text "Malformed user id"⟩, sampleState.record (.verifyToken ["admin"])⟩) ∧
    ((isValidObjectId sampleEnv "0000000000000000000000ff" = true ∧
      sampleEnv.castObjectId "0000000000000000000000ff" = some ⟨0xff⟩ ∧
      ∀ u ∈ sampleState.users, u._id ≠ ⟨0xff⟩) ∧
      (getUser sampleEnv ⟨some "admin-token", "0000000000000000000000ff", (), none⟩
        sampleState).response = some ⟨400, .text "User not found!"⟩) ∧
    ((isValidObjectId sampleEnv "0000000000000000000000b2" = true ∧
      sampleEnv.castObjectId "0000000000000000000000b2" = some ⟨0xb2⟩ ∧
      ∃ u ∈ sampleState.users, u._id = ⟨0xb2⟩) ∧
      ∃ u ∈ sampleState.users, u._id = ⟨0xb2⟩ ∧
        (getUser sampleEnv ⟨some "admin-token", "0000000000000000000000b2", (), none⟩
          sampleState).response
          = some ⟨200, .user (some (select ["-password", "-__v"] u.toJSON))⟩) :=
  ⟨rfl,
    ⟨by decide,
      ((getUser_validates_then_looks_up sampleEnv ⟨some "admin-token", "not-an-id", (), none⟩
        sampleState ⟨"0000000000000000000000a1", "admin"⟩ rfl).1 (by decide)).1⟩,
    ⟨⟨by decide, by decide, by decide⟩,
      (getUser_validates_then_looks_up sampleEnv
        ⟨some "admin-token", "0000000000000000000000ff", (), none⟩
        sampleState ⟨"0000000000000000000000a1", "admin"⟩ rfl).2.1 ⟨0xff⟩
        (by decide) (by decide) (by decide)⟩,
    ⟨⟨by decide, by decide, sampleUser, by decide, by decide⟩,
      (getUser_validates_then_looks_up sampleEnv
        ⟨some "admin-token", "0000000000000000000000b2", (), none⟩
        sampleState ⟨"0000000000000000000000a1", "admin"⟩ rfl).2.2 ⟨0xb2⟩
        (by decide) (by decide) ⟨sampleUser, by decide, by decide⟩⟩⟩

/-! ## Soft delete -/

/-- C7: for an authorised caller and an id that a lookup finds (record `u`), after
`DELETE /delete/:id` a lookup by the same id returns `u` with status `deleted` and every other
field as before, the number of records is the same, every record with a different id is
unchanged in place, and lookups by any other id give what they gave before. -/
theorem softDelete_marks_and_keeps (env : Env) (req : Request Unit) (st : State)
    (user : Identity) (u : User)
    (hauth : verifyToken env ["admin", "user"] req.token = .ok user)
    (hfound : findById env st.users req.params_id = .ok (some u)) :
    (deleteUser env req st).response = some ⟨200, .message "User successfully deleted!"⟩ ∧
    findById env (deleteUser env req st).state.users req.params_id
      = .ok (some { u with status := "deleted" }) ∧
    (deleteUser env req st).state.users.length = st.users.length ∧
    (∀ (i : Nat) (w : User), st.users[i]? = some w → w._id ≠ u._id →
      (deleteUser env req st).state.users[i]? = some w) ∧
    (∀ (id' : String) (oid' : ObjectId), env.castObjectId id' = some oid' → oid' ≠ u._id →
      findById env (deleteUser env req st).state.users id' = findById env st.users id') ∧
    (deleteUser env req st).state.files = st.files := by
  cases hc : env.castObjectId req.params_id with
  | none => simp [findById, hc] at hfound
  | some oid =>
    have hf : st.users.find? (fun w => w._id = oid) = some u := by
      simpa [findById, hc] using hfound
    have hid : u._id = oid := by simpa using List.find?_some hf
    have happ : applyBody env u (.object { status := some "deleted" })
        = .ok { u with status := "deleted" } := by
      simp [applyBody, applyUpdate]
    have hupd : findOneAndUpdate env st.users req.params_id
          (.object { status := some "deleted" })
        = .ok (some { u with status := "deleted" },
            updateFirst (fun w => w._id = oid) (fun _ => { u with status := "deleted" })
              st.users) := by
      simp [findOneAndUpdate, hc, hf, happ]
    have hout : deleteUser env req st
        = ⟨some ⟨200, .message "User successfully deleted!"⟩,
            { ((st.record (.verifyToken ["admin", "user"])).record
                (.repo "findOneAndUpdate")) with
              users := updateFirst (fun w => w._id = oid)
                (fun _ => { u with status := "deleted" }) st.users }⟩ := by
      simp only [deleteUser, guarded_ok hauth, record_users, hupd]
    rw [hout]
    refine ⟨rfl, ?_, ?_, ?_, ?_, rfl⟩
    · simp only [findById, hc]
      rw [updateFirst_find_same _ _ st.users u hf (by simp [hid])]
    · exact updateFirst_length _ _ _
    · intro i w hw hne
      exact updateFirst_getElem _ _ st.users i w hw (by simpa [← hid] using hne)
    · intro id' oid' hc' hne
      simp only [findById, hc']
      rw [updateFirst_find_other]
      intro w hw
      have hw' : w._id = oid := by simpa using hw
      constructor
      · simp only [decide_eq_false_iff_not]
        intro e
        exact hne (by rw [← e, hw', hid])
      · simp only [decide_eq_false_iff_not]
        intro e
        exact hne e.symm

theorem softDelete_marks_and_keeps_witness :
    (verifyToken sampleEnv ["admin", "user"] (some "user-token")
        = .ok ⟨"0000000000000000000000b2", "user"⟩ ∧
      findById sampleEnv sampleState.users "0000000000000000000000b2" = .ok (some sampleUser)) ∧
    ((deleteUser sampleEnv ⟨some "user-token", "0000000000000000000000b2", (), none⟩
        sampleState).response = some ⟨200, .message "User successfully deleted!"⟩ ∧
    findById sampleEnv
        (deleteUser sampleEnv ⟨some "user-token", "0000000000000000000000b2", (), none⟩
          sampleState).state.users "0000000000000000000000b2"
      = .ok (some { sampleUser with status := "deleted" }) ∧
    (deleteUser sampleEnv ⟨some "user-token", "0000000000000000000000b2", (), none⟩
        sampleState).state.users.length = sampleState.users.length ∧
    (∀ (i : Nat) (w : User), sampleState.users[i]? = some w → w._id ≠ sampleUser._id →
      (deleteUser sampleEnv ⟨some "user-token", "0000000000000000000000b2", (), none⟩
        sampleState).state.users[i]? = some w) ∧
    (∀ (id' : String) (oid' : ObjectId), sampleEnv.castObjectId id' = some oid' →
      oid' ≠ sampleUser._id →
      findById sampleEnv
          (deleteUser sampleEnv ⟨some "user-token", "0000000000000000000000b2", (), none⟩
            sampleState).state.users id'
        = findById sampleEnv sampleState.users id') ∧
    (deleteUser sampleEnv ⟨some "user-token", "0000000000000000000000b2", (), none⟩
        sampleState).state.files = sampleState.files) :=
  ⟨⟨rfl, rfl⟩,
    softDelete_marks_and_keeps sampleEnv
      ⟨some "user-token", "0000000000000000000000b2", (), none⟩ sampleState
      ⟨"0000000000000000000000b2", "user"⟩ sampleUser rfl rfl⟩

/-! ## By-id operations on a missing id -/

/-- C8 (violated by the code): for a well-formed id that no record has, the soft delete
answers 200 `User successfully deleted!` and the admin update by id answers 200
`User successfully updated` with a null document; neither answers not-found. The stored users
are unchanged. -/
theorem missing_id_reported_as_success :
    findById sampleEnv sampleState.users "0000000000000000000000ff" = .ok none ∧
    deleteUser sampleEnv ⟨some "admin-token", "0000000000000000000000ff", (), none⟩ sampleState
      = ⟨some ⟨200, .message "User successfully deleted!"⟩,
          { users := [sampleUser], files := [],
            log := [.verifyToken ["admin", "user"], .repo "findOneAndUpdate"] }⟩ ∧
    updateUserById sampleEnv
        ⟨some "admin-token", "0000000000000000000000ff", .object { role := some "admin" },
          none⟩
        sampleState
      = ⟨some ⟨200, .offer "User successfully updated" none⟩,
          { users := [sampleUser], files := [],
            log := [.verifyToken ["admin"], .repo "findOneAndUpdate"] }⟩ := by
  refine ⟨rfl, ?_, ?_⟩ <;> decide

end Users
